import Mathlib

/-!
Shallow embedding of the save-data service (the refactored variant embedded in
the repository's README: validator, storage factory, storage strategies,
`DataService`, HTTP handler, and the process-owned database connection).

Go byte slices are modelled as lists of naturals; Go `error` results are
modelled as `Except String` carrying the rendered error message, since the
handler's status-code choice compares rendered message strings.  Mutable
state reached through pointers (the contents of the fixed file `data.txt`
and the shared `DatabaseConnection`) is threaded explicitly through a
`World` record.  File I/O is modelled as succeeding; the database write
primitive is the mock in the source, whose observable effect (the printed
payload) is recorded in the connection's `writes` log.
-/

/-- Go `[]byte`, as a list of byte values. -/
abbrev Bytes := List Nat

/-- The decoded request struct: `Data []byte` and `StorageType string`
with JSON keys `data` (base64) and `storage_type`. -/
structure SaveRequest where
  data : Bytes
  storageType : String
deriving DecidableEq

/-- The process-owned database connection.  The `writes` field records every
payload handed to the mock write primitive (the source prints it), so that
persistence effects are observable in the embedding. -/
structure DatabaseConnection where
  Host : String
  Port : Nat
  Username : String
  Password : String
  DBName : String
  connected : Bool
  writes : List Bytes
deriving DecidableEq

/-- Embeds `NewDatabaseConnection`: always succeeds and returns a connection
with `connected` set to true. -/
def NewDatabaseConnection (host : String) (port : Nat)
    (username password dbName : String) : Except String DatabaseConnection :=
  .ok { Host := host, Port := port, Username := username, Password := password,
        DBName := dbName, connected := true, writes := [] }

/-- Embeds the connection's `Save`: fails when not connected, otherwise the
mock write records the payload. -/
def DatabaseConnection.Save (db : DatabaseConnection) (data : Bytes) :
    Except String Unit × DatabaseConnection :=
  if db.connected = false then
    (.error "database connection not established", db)
  else
    (.ok (), { db with writes := data :: db.writes })

/-- Embeds the connection's `Close`: clears the connected flag and reports ok. -/
def DatabaseConnection.Close (db : DatabaseConnection) :
    Except String Unit × DatabaseConnection :=
  (.ok (), { db with connected := false })

/-- The mutable world the strategies touch: the contents of the fixed file
`data.txt` (`none` when the file has never been created) and the shared
connection (`none` models a nil connection pointer in the factory). -/
structure World where
  fileData : Option Bytes
  conn : Option DatabaseConnection
deriving DecidableEq

/-- The storage strategies implementing `StorageInterface` in the source:
`FileStorage` carries its filename, `DatabaseStorage` a reference to the
shared connection. -/
inductive StorageInterface where
  | fileStorage (filename : String)
  | databaseStorage (db : DatabaseConnection)
deriving DecidableEq

/-- Embeds each strategy's `Save`.  `FileStorage.Save` creates/overwrites the
file and writes the payload verbatim (I/O modelled as succeeding);
`DatabaseStorage.Save` delegates to the connection's `Save`, and a
successful write updates the shared connection in the world. -/
def StorageInterface.Save : StorageInterface → Bytes → World →
    Except String Unit × World
  | .fileStorage _, data, w => (.ok (), { w with fileData := some data })
  | .databaseStorage db, data, w =>
    match db.Save data with
    | (.error e, _) => (.error e, w)
    | (.ok _, db2) => (.ok (), { w with conn := some db2 })

/-- The factory, holding a reference to the shared connection
(`none` models a nil pointer). -/
structure ConcreteStorageFactory where
  database : Option DatabaseConnection
deriving DecidableEq

/-- Embeds `ConcreteStorageFactory.CreateStorage`: `file` maps to a
`FileStorage` on `data.txt`, `database` to a `DatabaseStorage` on the held
connection (failing when that is nil), and every other kind is rejected. -/
def ConcreteStorageFactory.CreateStorage (f : ConcreteStorageFactory)
    (storageType : String) : Except String StorageInterface :=
  if storageType = "file" then
    .ok (.fileStorage "data.txt")
  else if storageType = "database" then
    match f.database with
    | none => .error "database connection not available"
    | some db => .ok (.databaseStorage db)
  else
    .error ("unsupported storage type: " ++ storageType)

/-- The validator's recognized set, exactly the source's `validTypes` slice. -/
def validTypes : List String := ["file", "database"]

/-- Embeds `RequestValidator.ValidateRequest`: empty data, then empty storage
type, then membership in `validTypes`, first failure winning.  The source's
loop over `validTypes` is the list-membership test. -/
def RequestValidator.ValidateRequest (req : SaveRequest) : Except String Unit :=
  if req.data.length = 0 then
    .error "data cannot be empty"
  else if req.storageType = "" then
    .error "storage type cannot be empty"
  else if validTypes.contains req.storageType then
    .ok ()
  else
    .error ("invalid storage type: " ++ req.storageType)

/-- Embeds `DataService.SaveData`: validate, create the storage, persist,
wrapping each failure with the source's message prefix.  The service's
factory holds the world's connection by reference, so the embedding reads it
from the world. -/
def DataService.SaveData (req : SaveRequest) (w : World) :
    Except String Unit × World :=
  match RequestValidator.ValidateRequest req with
  | .error e => (.error ("validation failed: " ++ e), w)
  | .ok _ =>
    match ConcreteStorageFactory.CreateStorage ⟨w.conn⟩ req.storageType with
    | .error e => (.error ("failed to create storage: " ++ e), w)
    | .ok storage =>
      match storage.Save req.data w with
      | (.error e, w2) => (.error ("failed to save data: " ++ e), w2)
      | (.ok _, w2) => (.ok (), w2)

/-- Value of one standard base64 alphabet character. -/
def base64Val (c : Char) : Option Nat :=
  if 'A' ≤ c ∧ c ≤ 'Z' then some (c.toNat - 'A'.toNat)
  else if 'a' ≤ c ∧ c ≤ 'z' then some (c.toNat - 'a'.toNat + 26)
  else if '0' ≤ c ∧ c ≤ '9' then some (c.toNat - '0'.toNat + 52)
  else if c = '+' then some 62
  else if c = '/' then some 63
  else none

/-- Standard (padded) base64 decoding, as Go's `encoding/base64.StdEncoding`
applies it to the `data` field: groups of four characters, padding only in a
final group, `none` on any malformed input. -/
def base64DecodeChars : List Char → Option Bytes
  | [] => some []
  | c1 :: c2 :: c3 :: c4 :: rest =>
    match base64Val c1, base64Val c2 with
    | some v1, some v2 =>
      if c3 = '=' then
        if c4 = '=' ∧ rest = [] then some [v1 * 4 + v2 / 16] else none
      else
        match base64Val c3 with
        | some v3 =>
          if c4 = '=' then
            if rest = [] then some [v1 * 4 + v2 / 16, v2 % 16 * 16 + v3 / 4]
            else none
          else
            match base64Val c4, base64DecodeChars rest with
            | some v4, some tail =>
              some ((v1 * 4 + v2 / 16) :: (v2 % 16 * 16 + v3 / 4) ::
                (v3 % 4 * 64 + v4) :: tail)
            | _, _ => none
        | none => none
    | _, _ => none
  | _ => none

/-- Drops leading JSON whitespace. -/
def skipWs : List Char → List Char
  | c :: rest =>
    if c = ' ' ∨ c = '\t' ∨ c = '\n' ∨ c = '\r' then skipWs rest else c :: rest
  | [] => []

/-- Reads the characters of a JSON string literal after its opening quote,
up to the closing quote.  Escape sequences are not needed for the bodies
this service receives and are treated as malformed. -/
def stringChars : List Char → Option (List Char × List Char)
  | [] => none
  | c :: rest =>
    if c = '"' then some ([], rest)
    else if c = '\\' then none
    else
      match stringChars rest with
      | some (cs, r) => some (c :: cs, r)
      | none => none

/-- Parses one JSON string literal. -/
def parseStringLit : List Char → Option (String × List Char)
  | '"' :: rest =>
    match stringChars rest with
    | some (cs, r) => some (String.mk cs, r)
    | none => none
  | _ => none

/-- Parses the remaining `"key":"value"` pairs of a flat JSON object, up to
and including the closing brace.  The fuel argument bounds the recursion by
the input length. -/
def parsePairs : Nat → List Char → Option (List (String × String) × List Char)
  | 0, _ => none
  | fuel + 1, cs =>
    match parseStringLit (skipWs cs) with
    | none => none
    | some (key, rest) =>
      match skipWs rest with
      | ':' :: rest2 =>
        match parseStringLit (skipWs rest2) with
        | none => none
        | some (val, rest3) =>
          match skipWs rest3 with
          | ',' :: rest4 =>
            match parsePairs fuel rest4 with
            | some (pairs, r) => some ((key, val) :: pairs, r)
            | none => none
          | '\x7d' :: rest4 => some ([(key, val)], rest4)
          | _ => none
      | _ => none

/-- Parses a flat JSON object whose values are strings. -/
def parseFlatObject (cs : List Char) : Option (List (String × String) × List Char) :=
  match skipWs cs with
  | '\x7b' :: rest =>
    match skipWs rest with
    | '\x7d' :: rest2 => some ([], rest2)
    | rest2 => parsePairs (rest2.length + 1) rest2
  | _ => none

/-- Folds one decoded object field into the request being built: `data` is
base64-decoded into the byte slice, `storage_type` is taken verbatim, and
unknown keys are ignored as Go's decoder ignores them. -/
def applyField (req : SaveRequest) : String × String → Option SaveRequest
  | ("data", v) =>
    match base64DecodeChars v.data with
    | some bs => some { req with data := bs }
    | none => none
  | ("storage_type", v) => some { req with storageType := v }
  | _ => some req

/-- Folds all decoded fields, starting from the zero-valued request. -/
def applyFields : SaveRequest → List (String × String) → Option SaveRequest
  | req, [] => some req
  | req, p :: ps =>
    match applyField req p with
    | some req2 => applyFields req2 ps
    | none => none

/-- Models Go's `encoding/json.Unmarshal` into the `SaveRequest` struct for
the flat string-valued object bodies this endpoint receives: absent fields
keep their zero values (empty slice, empty string), the `data` field is
base64-decoded, and malformed bodies are rejected.  This is the external
standard-library collaborator of the handler's decode step. -/
def jsonUnmarshal (body : String) : Except String SaveRequest :=
  match parseFlatObject body.data with
  | none => .error "cannot unmarshal body"
  | some (pairs, rest) =>
    if skipWs rest = [] then
      match applyFields ⟨[], ""⟩ pairs with
      | some req => .ok req
      | none => .error "cannot unmarshal body"
    else .error "cannot unmarshal body"

/-- An HTTP response as the handler renders it: status code and body text
(`http.Error` appends a newline to its message). -/
structure HTTPResponse where
  status : Nat
  body : String
deriving DecidableEq

/-- Embeds `HTTPHandler.HandleSaveData`.  The body argument is the result of
`io.ReadAll` (`Except Unit` models a read failure).  Mirrors the source: the
method check first, then body read, then JSON decode, then delegation to the
service; a service error is answered with status 500 unless its rendered
message equals the literal `validation failed`, and the success path returns
the encoded JSON response. -/
def HTTPHandler.HandleSaveData (method : String) (body : Except Unit String)
    (w : World) : HTTPResponse × World :=
  if method ≠ "POST" then
    ({ status := 405, body := "Method not allowed\n" }, w)
  else
    match body with
    | .error _ => ({ status := 400, body := "Failed to read body\n" }, w)
    | .ok bodyStr =>
      match jsonUnmarshal bodyStr with
      | .error _ => ({ status := 400, body := "Invalid JSON format\n" }, w)
      | .ok req =>
        match DataService.SaveData req w with
        | (.error e, w2) =>
          ({ status := if e = "validation failed" then 400 else 500,
             body := e ++ "\n" }, w2)
        | (.ok _, w2) =>
          ({ status := 200,
             body := "\x7b\"message\":\"Data saved successfully\",\"status\":\"success\"\x7d\n" },
           w2)

/-- The connection the server establishes at startup, with the source's
hard-coded configuration. -/
def startupConn : DatabaseConnection :=
  { Host := "localhost", Port := 5432, Username := "admin",
    Password := "password123", DBName := "app_database",
    connected := true, writes := [] }

/-- The world right after startup: no file written yet, the startup
connection established and shared with the factory. -/
def startupWorld : World :=
  { fileData := none,
    conn := (NewDatabaseConnection "localhost" 5432 "admin" "password123"
      "app_database").toOption }

/-- Boolean string-prefix test, via the character lists. -/
def strHasPrefix (p s : String) : Bool := p.data.isPrefixOf s.data

/-- The spec's outcome taxonomy. -/
inductive SaveOutcome where
  | success
  | validationError
  | unsupportedStorage
  | persistenceFailure
  | unclassified
deriving DecidableEq

/-- Abstraction from the service's rendered error messages to the spec's
outcome taxonomy, keyed on the wrapping prefixes `SaveData` attaches to the
three failure steps. -/
def classifyOutcome : Except String Unit → SaveOutcome
  | .ok _ => .success
  | .error e =>
    if strHasPrefix "validation failed: " e then .validationError
    else if strHasPrefix "failed to create storage: " e then .unsupportedStorage
    else if strHasPrefix "failed to save data: " e then .persistenceFailure
    else .unclassified

/-- A string is a prefix of itself followed by anything. -/
theorem strHasPrefix_self_append (p b : String) :
    strHasPrefix p (p ++ b) = true := by
  simp [strHasPrefix, String.data_append, List.isPrefixOf_iff_prefix]

/-- A concatenation whose left part is already longer than a target string
cannot equal that target. -/
theorem append_ne_of_longer (a b t : String)
    (h : t.data.length < a.data.length) : a ++ b ≠ t := by
  intro he
  have hd : (a ++ b).data = t.data := by rw [he]
  rw [String.data_append] at hd
  have hlen := congrArg List.length hd
  rw [List.length_append] at hlen
  omega

/-- Every error `SaveData` produces carries one of the three wrapping
prefixes the source attaches, each with a non-empty detail. -/
theorem saveData_error_shape (req : SaveRequest) (w : World) (e : String)
    (he : (DataService.SaveData req w).fst = .error e) :
    (∃ e0, e = "validation failed: " ++ e0) ∨
    (∃ e0, e = "failed to create storage: " ++ e0) ∨
    (∃ e0, e = "failed to save data: " ++ e0) := by
  unfold DataService.SaveData at he
  cases hv : RequestValidator.ValidateRequest req with
  | error e0 =>
    rw [hv] at he
    exact .inl ⟨e0, by simpa using he.symm⟩
  | ok u =>
    cases u
    rw [hv] at he
    cases hf : ConcreteStorageFactory.CreateStorage ⟨w.conn⟩ req.storageType with
    | error e0 =>
      simp only [hf] at he
      exact .inr (.inl ⟨e0, by simpa using he.symm⟩)
    | ok s =>
      simp only [hf] at he
      cases hs : s.Save req.data w with
      | mk r w2 =>
        simp only [hs] at he
        cases r with
        | error e0 => exact .inr (.inr ⟨e0, by simpa using he.symm⟩)
        | ok u2 => simp at he

/-- A database connection whose link has been dropped, used as a concrete
instance for the disconnected-persist theorems. -/
def closedConn : DatabaseConnection :=
  { Host := "localhost", Port := 5432, Username := "admin",
    Password := "password123", DBName := "app_database",
    connected := false, writes := [] }

/-- C1: the claim says a request whose decoded `SaveRequest` fails validation
is answered with 400 and the error detail, never 5xx.  The code answers 500:
the handler compares the rendered error with the literal `validation failed`,
but every service error carries a wrapped prefix with a detail, so the 400
branch is unreachable.  Shown at the failing input (body with empty data and
kind `file`) together with the general dead-branch fact. -/
theorem C1_validation_failure_answered_500 :
    jsonUnmarshal "\x7b\"data\":\"\",\"storage_type\":\"file\"\x7d" =
      .ok ⟨[], "file"⟩ ∧
    RequestValidator.ValidateRequest ⟨[], "file"⟩ =
      .error "data cannot be empty" ∧
    (HTTPHandler.HandleSaveData "POST"
        (.ok "\x7b\"data\":\"\",\"storage_type\":\"file\"\x7d") startupWorld).fst =
      ⟨500, "validation failed: data cannot be empty\n"⟩ ∧
    ∀ (req : SaveRequest) (w : World) (e : String),
      (DataService.SaveData req w).fst = .error e → e ≠ "validation failed" := by
  refine ⟨rfl, rfl, rfl, ?_⟩
  intro req w e he
  rcases saveData_error_shape req w e he with ⟨e0, h⟩ | ⟨e0, h⟩ | ⟨e0, h⟩ <;>
    · subst h
      exact append_ne_of_longer _ _ _ (by decide)

/-- Closed instance of C1's dead-branch fact at the failing input: the
rendered validation error never equals the literal the handler tests. -/
theorem C1_validation_failure_answered_500_witness :
    "validation failed: data cannot be empty" ≠ "validation failed" :=
  C1_validation_failure_answered_500.2.2.2 ⟨[], "file"⟩ startupWorld
    "validation failed: data cannot be empty" rfl

/-- C2: the claim says the kind `memory` is recognized and the request stores
the decoded bytes.  The code has no memory storage: the validator's
recognized set is only `file` and `database`, the factory rejects `memory`,
and the handler answers 500 with the validation error, leaving the world
unchanged — even though the decode of the claimed body succeeds and yields
the bytes of `Hello`. -/
theorem C2_memory_kind_not_recognized :
    jsonUnmarshal "\x7b\"data\":\"SGVsbG8=\",\"storage_type\":\"memory\"\x7d" =
      .ok ⟨[72, 101, 108, 108, 111], "memory"⟩ ∧
    validTypes.contains "memory" = false ∧
    RequestValidator.ValidateRequest ⟨[72, 101, 108, 108, 111], "memory"⟩ =
      .error "invalid storage type: memory" ∧
    ConcreteStorageFactory.CreateStorage ⟨startupWorld.conn⟩ "memory" =
      .error "unsupported storage type: memory" ∧
    (HTTPHandler.HandleSaveData "POST"
        (.ok "\x7b\"data\":\"SGVsbG8=\",\"storage_type\":\"memory\"\x7d")
        startupWorld).fst =
      ⟨500, "validation failed: invalid storage type: memory\n"⟩ ∧
    (HTTPHandler.HandleSaveData "POST"
        (.ok "\x7b\"data\":\"SGVsbG8=\",\"storage_type\":\"memory\"\x7d")
        startupWorld).snd = startupWorld :=
  ⟨rfl, rfl, rfl, rfl, rfl, rfl⟩

/-- C7: when the referenced connection is not connected, the database
strategy's persist fails with the connection-not-established error and
mutates nothing — the connection (fields and stored data) and the world are
returned unchanged. -/
theorem C7_disconnected_persist_fails_without_mutation
    (db : DatabaseConnection) (payload : Bytes) (w : World)
    (h : db.connected = false) :
    db.Save payload = (.error "database connection not established", db) ∧
    (StorageInterface.databaseStorage db).Save payload w =
      (.error "database connection not established", w) := by
  constructor
  · simp [DatabaseConnection.Save, h]
  · simp [StorageInterface.Save, DatabaseConnection.Save, h]

/-- Closed instance of C7 at a concrete disconnected connection. -/
theorem C7_disconnected_persist_fails_without_mutation_witness :
    DatabaseConnection.Save closedConn [1] =
      (.error "database connection not established", closedConn) ∧
    (StorageInterface.databaseStorage closedConn).Save [1] startupWorld =
      (.error "database connection not established", startupWorld) :=
  C7_disconnected_persist_fails_without_mutation closedConn [1] startupWorld rfl

/-- C8: any method other than POST is answered with the terminal 405
response, the world is unchanged (no file created), and the response does
not depend on the body — no body read or parse is attempted. -/
theorem C8_non_post_rejected_405 (method : String)
    (b b2 : Except Unit String) (w : World) (h : method ≠ "POST") :
    HTTPHandler.HandleSaveData method b w =
      ({ status := 405, body := "Method not allowed\n" }, w) ∧
    HTTPHandler.HandleSaveData method b w =
      HTTPHandler.HandleSaveData method b2 w := by
  constructor <;> simp [HTTPHandler.HandleSaveData, h]

/-- Closed instance of C8: a GET with a well-formed body is answered 405 and
behaves exactly like a GET whose body read would fail. -/
theorem C8_non_post_rejected_405_witness :
    HTTPHandler.HandleSaveData "GET" (.ok "\x7b\x7d") startupWorld =
      ({ status := 405, body := "Method not allowed\n" }, startupWorld) ∧
    HTTPHandler.HandleSaveData "GET" (.ok "\x7b\x7d") startupWorld =
      HTTPHandler.HandleSaveData "GET" (.error ()) startupWorld :=
  C8_non_post_rejected_405 "GET" (.ok "\x7b\x7d") (.error ()) startupWorld
    (by decide)

/-- C9: closing the connection reports ok and clears the connected flag, any
later persist through that connection fails with the
connection-not-established error, and persist succeeds exactly when the
connection is in the connected state. -/
theorem C9_close_disables_persist (db : DatabaseConnection) (payload : Bytes)
    (w : World) :
    db.Close = (.ok (), { db with connected := false }) ∧
    (db.Close.snd.Save payload).fst =
      .error "database connection not established" ∧
    ((StorageInterface.databaseStorage db.Close.snd).Save payload w).fst =
      .error "database connection not established" ∧
    ((db.Save payload).fst = .ok () ↔ db.connected = true) := by
  refine ⟨rfl, rfl, rfl, ?_⟩
  cases hdb : db.connected <;> simp [DatabaseConnection.Save, hdb]

/-- C10: the body of a bare JSON object decodes successfully to the
zero-valued request, which the validator's empty-payload rule rejects, so
the handler's body is the validation detail and not the invalid-JSON
message. -/
theorem C10_empty_object_reaches_validator :
    jsonUnmarshal "\x7b\x7d" = .ok ⟨[], ""⟩ ∧
    RequestValidator.ValidateRequest ⟨[], ""⟩ = .error "data cannot be empty" ∧
    (HTTPHandler.HandleSaveData "POST" (.ok "\x7b\x7d") startupWorld).fst.body =
      "validation failed: data cannot be empty\n" ∧
    (HTTPHandler.HandleSaveData "POST" (.ok "\x7b\x7d") startupWorld).fst.body ≠
      "Invalid JSON format\n" := by
  refine ⟨rfl, rfl, rfl, ?_⟩
  decide

/-- C3: for every non-empty payload and recognized storage kind, with the
shared connection established, `SaveData` succeeds and the selected
strategy's persisted content equals the payload byte for byte — the file
contents for `file`, the newest connection write for `database`. -/
theorem C3_recognized_kind_persists_payload
    (payload : Bytes) (kind : String) (w : World) (db : DatabaseConnection)
    (hp : payload ≠ []) (hk : validTypes.contains kind = true)
    (hc : w.conn = some db) (hdb : db.connected = true) :
    (DataService.SaveData ⟨payload, kind⟩ w).fst = .ok () ∧
    (kind = "file" →
      (DataService.SaveData ⟨payload, kind⟩ w).snd.fileData = some payload) ∧
    (kind = "database" →
      (DataService.SaveData ⟨payload, kind⟩ w).snd.conn =
        some { db with writes := payload :: db.writes }) := by
  have hlen : ¬ payload.length = 0 := by simpa using hp
  have hk2 : kind = "file" ∨ kind = "database" := by
    simpa [validTypes] using hk
  rcases hk2 with h | h <;> subst h <;>
    simp [DataService.SaveData, RequestValidator.ValidateRequest,
      ConcreteStorageFactory.CreateStorage, StorageInterface.Save,
      DatabaseConnection.Save, validTypes, hlen, hc, hdb]

/-- Closed instance of C3: a two-byte payload saved to the file backend from
the startup world ends up verbatim in the file. -/
theorem C3_recognized_kind_persists_payload_witness :
    (DataService.SaveData ⟨[104, 105], "file"⟩ startupWorld).fst = .ok () ∧
    ("file" = "file" →
      (DataService.SaveData ⟨[104, 105], "file"⟩ startupWorld).snd.fileData =
        some [104, 105]) ∧
    ("file" = "database" →
      (DataService.SaveData ⟨[104, 105], "file"⟩ startupWorld).snd.conn =
        some { startupConn with writes := [104, 105] :: startupConn.writes }) :=
  C3_recognized_kind_persists_payload [104, 105] "file" startupWorld
    startupConn (by decide) (by decide) rfl rfl

/-- C4: `SaveData` follows the spec's algorithm — a validation failure yields
the validation outcome with the world untouched; otherwise a factory failure
yields the storage-creation outcome with the world untouched; otherwise
persist runs once, a failure yielding the persistence outcome and success
the success outcome — and the world changes by at most one persistence
effect: nothing, one file write, or one connection write. -/
theorem C4_saveData_follows_algorithm (req : SaveRequest) (w : World) :
    ((∃ e, RequestValidator.ValidateRequest req = .error e ∧
        DataService.SaveData req w =
          (.error ("validation failed: " ++ e), w)) ∨
     (RequestValidator.ValidateRequest req = .ok () ∧
      ∃ e, ConcreteStorageFactory.CreateStorage ⟨w.conn⟩ req.storageType =
          .error e ∧
        DataService.SaveData req w =
          (.error ("failed to create storage: " ++ e), w)) ∨
     (RequestValidator.ValidateRequest req = .ok () ∧
      ∃ s, ConcreteStorageFactory.CreateStorage ⟨w.conn⟩ req.storageType =
          .ok s ∧
        ((∃ e, (s.Save req.data w).fst = .error e ∧
            DataService.SaveData req w =
              (.error ("failed to save data: " ++ e),
                (s.Save req.data w).snd)) ∨
         ((s.Save req.data w).fst = .ok () ∧
          DataService.SaveData req w = (.ok (), (s.Save req.data w).snd))))) ∧
    ((DataService.SaveData req w).snd = w ∨
     (DataService.SaveData req w).snd = { w with fileData := some req.data } ∨
     (∃ db, w.conn = some db ∧
        (DataService.SaveData req w).snd =
          { w with conn := some { db with writes := req.data :: db.writes } })) := by
  constructor
  · cases hv : RequestValidator.ValidateRequest req with
    | error e =>
      exact .inl ⟨e, rfl, by simp [DataService.SaveData, hv]⟩
    | ok u =>
      cases u
      cases hf : ConcreteStorageFactory.CreateStorage ⟨w.conn⟩
          req.storageType with
      | error e =>
        exact .inr (.inl ⟨rfl, e, rfl, by simp [DataService.SaveData, hv, hf]⟩)
      | ok s =>
        refine .inr (.inr ⟨rfl, s, rfl, ?_⟩)
        cases hs : s.Save req.data w with
        | mk r w2 =>
          cases r with
          | error e =>
            exact .inl ⟨e, by simp [hs],
              by simp [DataService.SaveData, hv, hf, hs]⟩
          | ok u2 =>
            cases u2
            exact .inr ⟨by simp [hs],
              by simp [DataService.SaveData, hv, hf, hs]⟩
  · cases hv : RequestValidator.ValidateRequest req with
    | error e => simp [DataService.SaveData, hv]
    | ok u =>
      cases u
      cases hf : ConcreteStorageFactory.CreateStorage ⟨w.conn⟩
          req.storageType with
      | error e => simp [DataService.SaveData, hv, hf]
      | ok s =>
        cases s with
        | fileStorage fn =>
          simp [DataService.SaveData, hv, hf, StorageInterface.Save]
        | databaseStorage db =>
          have hconn : w.conn = some db := by
            by_cases h1 : req.storageType = "file"
            · simp [ConcreteStorageFactory.CreateStorage, h1] at hf
            · by_cases h2 : req.storageType = "database"
              · simp [ConcreteStorageFactory.CreateStorage, h1, h2] at hf
                cases hc : w.conn with
                | none => simp [hc] at hf
                | some db3 =>
                  simp [hc] at hf
                  rw [hf]
              · simp [ConcreteStorageFactory.CreateStorage, h1, h2] at hf
          cases hdb : db.connected with
          | false =>
            simp [DataService.SaveData, hv, hf, StorageInterface.Save,
              DatabaseConnection.Save, hdb]
          | true =>
            refine .inr (.inr ⟨db, hconn, ?_⟩)
            simp [DataService.SaveData, hv, hf, StorageInterface.Save,
              DatabaseConnection.Save, hdb]

/-- C5: the validator applies its rules in order with the first failure
winning — empty payload is reported regardless of the storage kind, then
empty kind, then a kind outside the recognized set — and it accepts exactly
the non-empty payloads with recognized kinds.  It is a plain function of the
request, so it has no side effects by construction. -/
theorem C5_validator_order_first_failure_wins (req : SaveRequest) :
    (req.data = [] →
      RequestValidator.ValidateRequest req = .error "data cannot be empty") ∧
    (req.data ≠ [] → req.storageType = "" →
      RequestValidator.ValidateRequest req =
        .error "storage type cannot be empty") ∧
    (req.data ≠ [] → req.storageType ≠ "" →
      validTypes.contains req.storageType = false →
      RequestValidator.ValidateRequest req =
        .error ("invalid storage type: " ++ req.storageType)) ∧
    (req.data ≠ [] → validTypes.contains req.storageType = true →
      RequestValidator.ValidateRequest req = .ok ()) := by
  refine ⟨?_, ?_, ?_, ?_⟩
  · intro h1
    simp [RequestValidator.ValidateRequest, h1]
  · intro h1 h2
    have hlen : ¬ req.data.length = 0 := by simpa using h1
    simp [RequestValidator.ValidateRequest, hlen, h2]
  · intro h1 h2 h3
    have hlen : ¬ req.data.length = 0 := by simpa using h1
    have h3m : req.storageType ∉ validTypes := by simpa using h3
    simp [RequestValidator.ValidateRequest, hlen, h2, h3m]
  · intro h1 h2
    have hlen : ¬ req.data.length = 0 := by simpa using h1
    have h3 : req.storageType ≠ "" := by
      intro h
      rw [h] at h2
      simp [validTypes] at h2
    have h2m : req.storageType ∈ validTypes := by simpa using h2
    simp [RequestValidator.ValidateRequest, hlen, h3, h2m]

/-- Closed instances of each of C5's four rules at concrete requests. -/
theorem C5_validator_order_first_failure_wins_witness :
    RequestValidator.ValidateRequest ⟨[], "database"⟩ =
      .error "data cannot be empty" ∧
    RequestValidator.ValidateRequest ⟨[7], ""⟩ =
      .error "storage type cannot be empty" ∧
    RequestValidator.ValidateRequest ⟨[7], "redis"⟩ =
      .error ("invalid storage type: " ++ "redis") ∧
    RequestValidator.ValidateRequest ⟨[7], "file"⟩ = .ok () :=
  ⟨(C5_validator_order_first_failure_wins ⟨[], "database"⟩).1 rfl,
   (C5_validator_order_first_failure_wins ⟨[7], ""⟩).2.1 (by decide) rfl,
   (C5_validator_order_first_failure_wins ⟨[7], "redis"⟩).2.2.1 (by decide)
     (by decide) (by decide),
   (C5_validator_order_first_failure_wins ⟨[7], "file"⟩).2.2.2 (by decide)
     (by decide)⟩

/-- C6 as stated fails on the code: an unrecognized kind is screened by the
validator, so `SaveData` returns the validation outcome — not the
unsupported-storage-kind outcome the claim names — shown here at the kind
`redis` with a non-empty payload. -/
theorem C6_counterexample_outcome_is_validation :
    DataService.SaveData ⟨[72, 101, 108, 108, 111], "redis"⟩ startupWorld =
      (.error "validation failed: invalid storage type: redis",
        startupWorld) ∧
    classifyOutcome (DataService.SaveData ⟨[72, 101, 108, 108, 111], "redis"⟩
        startupWorld).fst = .validationError ∧
    classifyOutcome (DataService.SaveData ⟨[72, 101, 108, 108, 111], "redis"⟩
        startupWorld).fst ≠ .unsupportedStorage := by
  refine ⟨rfl, rfl, by decide⟩

/-- C6 amended: for every storage kind outside the recognized set, `SaveData`
rejects the request — classified as a validation failure, because the
validator screens unknown kinds before the factory is consulted — and no
strategy persist runs: the world is returned unchanged. -/
theorem C6_unrecognized_kind_rejected_no_persist
    (d : Bytes) (k : String) (w : World)
    (hk : validTypes.contains k = false) :
    classifyOutcome (DataService.SaveData ⟨d, k⟩ w).fst = .validationError ∧
    (DataService.SaveData ⟨d, k⟩ w).snd = w := by
  obtain ⟨e, he⟩ : ∃ e, RequestValidator.ValidateRequest ⟨d, k⟩ = .error e := by
    unfold RequestValidator.ValidateRequest
    have hkm : k ∉ validTypes := by simpa using hk
    by_cases h1 : d.length = 0
    · exact ⟨"data cannot be empty", by simp [h1]⟩
    · by_cases h2 : k = ""
      · exact ⟨"storage type cannot be empty", by simp [h1, h2]⟩
      · exact ⟨"invalid storage type: " ++ k, by simp [h1, h2, hkm]⟩
  constructor
  · simp [DataService.SaveData, he, classifyOutcome, strHasPrefix_self_append]
  · simp [DataService.SaveData, he]

/-- Closed instance of C6's amended statement at the kind `redis`. -/
theorem C6_unrecognized_kind_rejected_no_persist_witness :
    classifyOutcome (DataService.SaveData ⟨[7], "redis"⟩ startupWorld).fst =
      .validationError ∧
    (DataService.SaveData ⟨[7], "redis"⟩ startupWorld).snd = startupWorld :=
  C6_unrecognized_kind_rejected_no_persist [7] "redis" startupWorld (by decide)
